import Mathlib

/-!
Verification of the Conway Game of Life engine in
src/assets/js/conway-game.js (class ConwayGameOfLife).

The JavaScript engine state (the fields of the class that the claims are
about) is embedded as the structure GameState below; the two-dimensional
boolean buffers this.grid and this.nextGrid are embedded as lists of lists
of booleans.  JavaScript numbers that are used as array indices or sizes
are embedded as Nat (they are produced by Math.floor of non-negative
values) or as Int where a negative value can reach the operation; the
slider arithmetic (Math.pow, division) is embedded over the real numbers;
Math.random() is embedded as an explicit stream of rational draws indexed
by call order.
-/

/-- A grid row is a list of booleans; a grid is a list of rows
(this.grid and this.nextGrid in the source). -/
abbrev Grid := List (List Bool)

/-- Reading this.grid[i][j]: a missing row or a missing entry reads as
false (a JavaScript undefined index is falsy in every use the engine
makes of it). -/
def getCell (g : Grid) (i j : Nat) : Bool :=
  (g.getD i []).getD j false

/-- Writing this.grid[i][j] = v.  The engine only writes in-bounds
indices; an out-of-bounds List.set is a no-op. -/
def setCell (g : Grid) (i j : Nat) (v : Bool) : Grid :=
  g.set i ((g.getD i []).set j v)

/-- An all-false rows-by-cols grid, the result of the allocation loop in
initializeGrid (lines 232-240): new Array(rows) with each row
new Array(cols).fill(false). -/
def allFalseGrid (rows cols : Nat) : Grid :=
  List.replicate rows (List.replicate cols false)

/-- The grid g is a rows-by-cols matrix. -/
def gridShape (g : Grid) (rows cols : Nat) : Prop :=
  g.length = rows ∧ ∀ r ∈ g, r.length = cols

instance (g : Grid) (rows cols : Nat) : Decidable (gridShape g rows cols) := by
  unfold gridShape; infer_instance

/-- The engine state: the fields of class ConwayGameOfLife that the grid,
playback and damage-flag claims are about (lines 126-138), plus the
wasPlaying field written by the visibilitychange handler (line 583). -/
structure GameState where
  isPlaying : Bool
  wasPlaying : Bool
  grid : Grid
  nextGrid : Grid
  rows : Nat
  cols : Nat
  gridChanged : Bool
  needsRedraw : Bool
deriving DecidableEq

/-- Error taxonomy of the specification (section 7).  The source signals
invalidDimension as the RangeError thrown by the Array constructor on a
negative length, and outOfBounds as the silently rejected branch of the
bounds check in handleCanvasClick. -/
inductive GridError where
  | invalidDimension
  | outOfBounds
deriving DecidableEq

/-- initializeGrid (lines 232-240) for the in-range sizes the engine
actually computes (Math.floor of non-negative canvas measures): both
buffers become all-false rows-by-cols matrices. -/
def initializeGridS (s : GameState) : GameState :=
  { s with grid := allFalseGrid s.rows s.cols,
           nextGrid := allFalseGrid s.rows s.cols }

/-- new Array(cols).fill(false): the Array constructor throws a
RangeError (labelled invalidDimension per the spec taxonomy) on a
negative length, otherwise yields an all-false row. -/
def mkFalseRow (cols : Int) : Except GridError (List Bool) :=
  if cols < 0 then .error .invalidDimension
  else .ok (List.replicate cols.toNat false)

/-- initializeGrid (lines 232-240) with arbitrary integer sizes, making
the implicit failure of the Array constructor explicit: new Array(rows)
throws on rows < 0 before any row is built; otherwise the loop builds a
grid row and a nextGrid row per iteration, each row allocation throwing
on cols < 0. -/
def initializeGridChecked (rows cols : Int) : Except GridError (Grid × Grid) :=
  if rows < 0 then .error .invalidDimension
  else do
    let pairs ← (List.range rows.toNat).mapM (fun _ => do
      let r1 ← mkFalseRow cols
      let r2 ← mkFalseRow cols
      pure (r1, r2))
    pure (pairs.map Prod.fst, pairs.map Prod.snd)

/-- transferGridData (lines 242-253): copy the overlap of the saved old
grid into this.grid, iterating i < min(this.rows, oldGrid.length) and
j < min(this.cols, oldGrid[0]?.length || 0). -/
def transferGridDataS (s : GameState) (oldGrid : Grid) : GameState :=
  let minRows := min s.rows oldGrid.length
  let minCols := min s.cols (oldGrid.headD []).length
  { s with grid :=
      (List.range minRows).foldl (fun g i =>
        (List.range minCols).foldl (fun g j =>
          setCell g i j (getCell oldGrid i j)) g) s.grid }

/-- The resize path of boundResizeCanvas (lines 198-227): after the new
rows/cols are computed from the canvas, the old this.grid is saved,
initializeGrid reallocates both buffers at the new shape, and
transferGridData copies the overlap back; needsRedraw is set. -/
def resizeTo (s : GameState) (newRows newCols : Nat) : GameState :=
  let s1 : GameState := { s with rows := newRows, cols := newCols }
  let oldGrid := s1.grid
  let s2 := transferGridDataS (initializeGridS s1) oldGrid
  { s2 with needsRedraw := true }

/-- The unrolled neighbor count of updateGrid (lines 454-471):
rowAbove = (i - 1 + rows) % rows, rowBelow = (i + 1) % rows,
colLeft = (j - 1 + cols) % cols, colRight = (j + 1) % cols, then eight
reads.  For rows >= 1 the Nat expression (i + rows - 1) % rows equals
the JavaScript (i - 1 + rows) % rows. -/
def liveNeighborCount (g : Grid) (rows cols i j : Nat) : Nat :=
  let rowAbove := (i + rows - 1) % rows
  let rowBelow := (i + 1) % rows
  let colLeft := (j + cols - 1) % cols
  let colRight := (j + 1) % cols
  (if getCell g rowAbove colLeft then 1 else 0) +
  (if getCell g rowAbove j then 1 else 0) +
  (if getCell g rowAbove colRight then 1 else 0) +
  (if getCell g i colLeft then 1 else 0) +
  (if getCell g i colRight then 1 else 0) +
  (if getCell g rowBelow colLeft then 1 else 0) +
  (if getCell g rowBelow j then 1 else 0) +
  (if getCell g rowBelow colRight then 1 else 0)

/-- The rule application of updateGrid (lines 473-483) with the
constants CONFIG.RULES (SURVIVAL_MIN = 2, SURVIVAL_MAX = 3,
BIRTH_COUNT = 3). -/
def nextCellState (g : Grid) (rows cols i j : Nat) : Bool :=
  let count := liveNeighborCount g rows cols i j
  let cell := getCell g i j
  if cell then count == 2 || count == 3 else count == 3

/-- The nextGrid buffer written by the double loop of updateGrid
(lines 452-492). -/
def computeNextGrid (g : Grid) (rows cols : Nat) : Grid :=
  (List.range rows).map (fun i =>
    (List.range cols).map (fun j => nextCellState g rows cols i j))

/-- The gridChanged accumulation of updateGrid (lines 450, 487-490):
starting from false, set whenever newState differs from the old cell at
some visited position. -/
def anyCellChanged (g : Grid) (rows cols : Nat) : Bool :=
  (List.range rows).any (fun i =>
    (List.range cols).any (fun j =>
      nextCellState g rows cols i j != getCell g i j))

/-- updateGrid (lines 449-501): compute the next generation into the
scratch buffer, swap the two buffers, record gridChanged, and request a
redraw only when the grid changed. -/
def updateGrid (s : GameState) : GameState :=
  let next := computeNextGrid s.grid s.rows s.cols
  let changed := anyCellChanged s.grid s.rows s.cols
  { s with grid := next,
           nextGrid := s.grid,
           gridChanged := changed,
           needsRedraw := changed || s.needsRedraw }

/-- The toggle core of handleCanvasClick (lines 392-398): the grid
coordinate has already been derived from the click position, the bounds
check guards the flip.  The source leaves the state untouched on the
failed check; following the spec error taxonomy that rejected branch is
surfaced as the outOfBounds signal. -/
def toggleCell (s : GameState) (row col : Int) : GameState × Option GridError :=
  if 0 ≤ row ∧ row < (s.rows : Int) ∧ 0 ≤ col ∧ col < (s.cols : Int) then
    ({ s with grid := setCell s.grid row.toNat col.toNat
                        (!(getCell s.grid row.toNat col.toNat)),
              needsRedraw := true }, none)
  else (s, some GridError.outOfBounds)

/-- handleCanvasClick (lines 385-399): clicks are ignored while playing,
otherwise the clicked cell is toggled. -/
def handleCanvasClick (s : GameState) (row col : Int) : GameState :=
  if s.isPlaying then s else (toggleCell s row col).1

/-- The state effect of togglePlayPause (lines 401-434): flip isPlaying
and mark needsRedraw (the remaining statements only mutate DOM
presentation). -/
def togglePlayPause (s : GameState) : GameState :=
  { s with isPlaying := !s.isPlaying, needsRedraw := true }

/-- The document.hidden branch of the visibilitychange handler
(lines 581-586): record isPlaying into wasPlaying, then toggle to paused
only if currently playing. -/
def onHidden (s : GameState) : GameState :=
  let s1 : GameState := { s with wasPlaying := s.isPlaying }
  if s1.isPlaying then togglePlayPause s1 else s1

/-- The visible branch of the visibilitychange handler (lines 587-592):
toggle back to playing only if it was playing before hiding and is
currently paused. -/
def onVisible (s : GameState) : GameState :=
  if s.wasPlaying && !s.isPlaying then togglePlayPause s else s

/-- addRandomCells (lines 377-383) with Math.random() embedded as a
stream of rational draws in [0, 1) indexed by call order: iteration k
draws a row index Math.floor(random * rows), a column index
Math.floor(random * cols), and assigns random > 0.7
(CONFIG.RANDOM_CELL_THRESHOLD) to that cell. -/
def addRandomCells (rows cols : Nat) (draws : Nat → ℚ) (count : Nat)
    (g : Grid) : Grid :=
  (List.range count).foldl (fun g k =>
    let row := (Int.floor (draws (3 * k) * rows)).toNat
    let col := (Int.floor (draws (3 * k + 1) * cols)).toNat
    setCell g row col (decide (draws (3 * k + 2) > 7 / 10))) g

/-- The shape invariant of the data model (spec section 3): both buffers
are rows-by-cols matrices (rows, cols : Nat are non-negative by type). -/
def shapeInv (s : GameState) : Prop :=
  gridShape s.grid s.rows s.cols ∧ gridShape s.nextGrid s.rows s.cols

instance (s : GameState) : Decidable (shapeInv s) := by
  unfold shapeInv; infer_instance

/-- sliderToSpeed (lines 261-275) over the real numbers:
normalized = (sliderValue - SLIDER_DEFAULT) / SLIDER_DEFAULT with
SLIDER_DEFAULT = 50, then Math.pow(10, normalized), clamped to
[MIN_SPEED, MAX_SPEED] = [0.1, 10]. -/
noncomputable def sliderToSpeed (sliderValue : ℝ) : ℝ :=
  let normalized := (sliderValue - 50) / 50
  let speedMultiplier := (10 : ℝ) ^ normalized
  max 0.1 (min 10 speedMultiplier)

/-- The interval update of the slider input handler (line 291):
this.updateInterval = CONFIG.SPEED.BASE_INTERVAL / speedMultiplier with
BASE_INTERVAL = 200. -/
noncomputable def updateIntervalFor (speedMultiplier : ℝ) : ℝ :=
  200 / speedMultiplier

/-- The eight neighbor offsets named by the spec, in the order the
source reads them. -/
def specNeighborOffsets : List (Int × Int) :=
  [(-1, -1), (-1, 0), (-1, 1), (0, -1), (0, 1), (1, -1), (1, 0), (1, 1)]

/-- Wrapping of an integer index modulo a dimension, as the spec words
it: indices taken modulo rows and cols (mathematical modulo, so the
result is non-negative for a positive dimension). -/
def specWrap (n : Nat) (x : Int) : Nat :=
  (x % (n : Int)).toNat

/-- Modelled from the spec words of claim C1: the live-neighbor count of
cell (i, j) among the 8 toroidal neighbors, indices taken modulo rows
and cols. -/
def specToroidalNeighborCount (g : Grid) (rows cols i j : Nat) : Nat :=
  specNeighborOffsets.countP (fun p =>
    getCell g (specWrap rows ((i : Int) + p.1)) (specWrap cols ((j : Int) + p.2)))

/-! ### Helper lemmas about cells, shapes and writes -/

theorem length_setCell (g : Grid) (i j : Nat) (v : Bool) :
    (setCell g i j v).length = g.length := by
  simp [setCell]

theorem getCell_setCell_ne {g : Grid} {r c i j : Nat} (v : Bool)
    (h : r ≠ i ∨ c ≠ j) :
    getCell (setCell g r c v) i j = getCell g i j := by
  unfold getCell setCell
  simp only [List.getD_eq_getElem?_getD]
  rcases h with h | h
  · rw [List.getElem?_set_ne h]
  · by_cases hri : r = i
    · subst hri
      rw [List.getElem?_set_self']
      cases hg : g[r]? with
      | none => simp
      | some row =>
        simp only [Option.map_eq_map, Option.map_some', Option.getD_some,
          Function.const_apply]
        rw [List.getElem?_set_ne h]
    · rw [List.getElem?_set_ne hri]

theorem getCell_setCell_eq {g : Grid} {r c : Nat} (v : Bool)
    (hr : r < g.length) (hc : c < (g.getD r []).length) :
    getCell (setCell g r c v) r c = v := by
  unfold getCell setCell
  simp only [List.getD_eq_getElem?_getD] at hc ⊢
  rw [List.getElem?_set_self (by simpa using hr), Option.getD_some,
    List.getElem?_set_self hc, Option.getD_some]

theorem row_length_of_gridShape {g : Grid} {R C r : Nat}
    (h : gridShape g R C) (hr : r < R) : (g.getD r []).length = C := by
  obtain ⟨hlen, hrows⟩ := h
  have hlt : r < g.length := by omega
  rw [List.getD_eq_getElem?_getD, List.getElem?_eq_getElem hlt]
  exact hrows _ (List.getElem_mem hlt)

theorem gridShape_setCell {g : Grid} {R C : Nat} (h : gridShape g R C)
    (i j : Nat) (v : Bool) : gridShape (setCell g i j v) R C := by
  have hR : g.length = R := h.1
  by_cases hi : i < g.length
  · refine ⟨by rw [length_setCell]; exact h.1, ?_⟩
    intro r hr
    rcases List.mem_or_eq_of_mem_set hr with hmem | hEq
    · exact h.2 _ hmem
    · subst hEq
      rw [List.length_set]
      exact row_length_of_gridShape h (by omega)
  · unfold setCell
    rw [List.set_eq_of_length_le (by omega)]
    exact h

theorem getCell_allFalseGrid (R C i j : Nat) :
    getCell (allFalseGrid R C) i j = false := by
  unfold getCell allFalseGrid
  simp only [List.getD_eq_getElem?_getD, List.getElem?_replicate]
  by_cases hi : i < R
  · simp only [hi, if_true, Option.getD_some, List.getElem?_replicate]
    by_cases hj : j < C <;> simp [hj]
  · simp [hi]

theorem gridShape_allFalseGrid (R C : Nat) :
    gridShape (allFalseGrid R C) R C := by
  refine ⟨by simp [allFalseGrid], ?_⟩
  intro r hr
  rw [List.eq_of_mem_replicate hr]
  simp

theorem getCell_computeNextGrid {g : Grid} {rows cols i j : Nat}
    (hi : i < rows) (hj : j < cols) :
    getCell (computeNextGrid g rows cols) i j = nextCellState g rows cols i j := by
  unfold getCell computeNextGrid
  simp only [List.getD_eq_getElem?_getD, List.getElem?_map,
    List.getElem?_range hi, Option.map_some', Option.getD_some,
    List.getElem?_range hj]

theorem gridShape_computeNextGrid (g : Grid) (rows cols : Nat) :
    gridShape (computeNextGrid g rows cols) rows cols := by
  refine ⟨by simp [computeNextGrid], ?_⟩
  intro r hr
  unfold computeNextGrid at hr
  rcases List.mem_map.1 hr with ⟨i, _, rfl⟩
  simp

theorem gridShape_foldl {R C : Nat} {α : Type} {F : Grid → α → Grid}
    (hF : ∀ g a, gridShape g R C → gridShape (F g a) R C) :
    ∀ (l : List α) (g : Grid), gridShape g R C → gridShape (l.foldl F g) R C := by
  intro l
  induction l with
  | nil => intro g hg; exact hg
  | cons a l ih => intro g hg; exact ih _ (hF _ _ hg)

theorem getCell_foldl_rowWrite {R C : Nat} (f : Nat → Bool) (r : Nat)
    (hr : r < R) :
    ∀ (n : Nat), n ≤ C → ∀ (g : Grid), gridShape g R C → ∀ (i j : Nat),
    getCell ((List.range n).foldl (fun g2 j2 => setCell g2 r j2 (f j2)) g) i j =
      if i = r ∧ j < n then f j else getCell g i j := by
  intro n
  induction n with
  | zero =>
    intro _ g _ i j
    simp [List.range_zero]
  | succ n ih =>
    intro hn g hg i j
    rw [List.range_succ, List.foldl_append]
    simp only [List.foldl_cons, List.foldl_nil]
    have hshape : gridShape ((List.range n).foldl
        (fun g2 j2 => setCell g2 r j2 (f j2)) g) R C :=
      gridShape_foldl (fun g2 j2 hg2 => gridShape_setCell hg2 r j2 (f j2)) _ g hg
    by_cases hij : i = r ∧ j = n
    · obtain ⟨hi, hj⟩ := hij
      subst hi; subst hj
      rw [getCell_setCell_eq (f j) (by rw [hshape.1]; exact hr)
        (by rw [row_length_of_gridShape hshape hr]; omega)]
      simp
    · rw [getCell_setCell_ne (f n) (by tauto), ih (by omega) g hg i j]
      by_cases hi : i = r
      · subst hi
        have hjn : j ≠ n := fun hEq => hij ⟨rfl, hEq⟩
        by_cases hj : j < n
        · rw [if_pos ⟨rfl, hj⟩, if_pos ⟨rfl, by omega⟩]
        · rw [if_neg (by tauto), if_neg (by omega)]
      · rw [if_neg (by tauto), if_neg (by tauto)]

theorem getCell_foldl_rectWrite {R C : Nat} (f : Nat → Nat → Bool)
    {n : Nat} (hn : n ≤ C) :
    ∀ (m : Nat), m ≤ R → ∀ (g : Grid), gridShape g R C → ∀ (i j : Nat),
    getCell ((List.range m).foldl (fun g2 i2 =>
        (List.range n).foldl (fun g3 j2 => setCell g3 i2 j2 (f i2 j2)) g2) g) i j =
      if i < m ∧ j < n then f i j else getCell g i j := by
  intro m
  induction m with
  | zero =>
    intro _ g _ i j
    simp [List.range_zero]
  | succ m ih =>
    intro hm g hg i j
    rw [List.range_succ, List.foldl_append]
    simp only [List.foldl_cons, List.foldl_nil]
    have hshape : gridShape ((List.range m).foldl (fun g2 i2 =>
        (List.range n).foldl (fun g3 j2 => setCell g3 i2 j2 (f i2 j2)) g2) g) R C := by
      refine gridShape_foldl (fun g2 i2 hg2 => ?_) _ g hg
      exact gridShape_foldl (fun g3 j2 hg3 => gridShape_setCell hg3 i2 j2 (f i2 j2)) _ g2 hg2
    rw [getCell_foldl_rowWrite (f m) m (by omega) n hn _ hshape i j,
      ih (by omega) g hg i j]
    by_cases hi : i = m
    · subst hi
      by_cases hj : j < n
      · rw [if_pos ⟨rfl, hj⟩, if_pos ⟨by omega, hj⟩]
      · rw [if_neg (by tauto), if_neg (by omega), if_neg (by tauto)]
    · by_cases him : i < m
      · rw [if_neg (by tauto)]
        by_cases hj : j < n
        · rw [if_pos ⟨him, hj⟩, if_pos ⟨by omega, hj⟩]
        · rw [if_neg (by tauto), if_neg (by tauto)]
      · rw [if_neg (by tauto), if_neg (by tauto), if_neg (by omega)]

/-! ### Modular index arithmetic linking the source wrap-around to the
mathematical modulo of the spec -/

theorem specWrap_natCast (n m : Nat) : specWrap n (m : Int) = m % n := by
  unfold specWrap
  rw [← Int.natCast_mod]
  exact Int.toNat_natCast _

theorem specWrap_add_one (n i : Nat) :
    specWrap n ((i : Int) + 1) = (i + 1) % n := by
  rw [show ((i : Int) + 1) = ((i + 1 : Nat) : Int) by push_cast; ring]
  exact specWrap_natCast n (i + 1)

theorem specWrap_add_neg_one {n : Nat} (i : Nat) (hn : 1 ≤ n) :
    specWrap n ((i : Int) + (-1)) = (i + n - 1) % n := by
  unfold specWrap
  rw [show ((i : Int) + (-1)) % (n : Int) =
      (((i + n - 1 : Nat) : Int)) % (n : Int) by
    rw [show (((i + n - 1 : Nat) : Int)) = (i : Int) + (-1) + (n : Int) by omega]
    rw [Int.add_emod_self]]
  rw [← Int.natCast_mod]
  exact Int.toNat_natCast _

theorem specWrap_add_zero {n : Nat} (i : Nat) (hi : i < n) :
    specWrap n ((i : Int) + 0) = i := by
  rw [add_zero, specWrap_natCast, Nat.mod_eq_of_lt hi]

/-- The spec neighbor count coincides with the unrolled neighbor count of
updateGrid at every in-bounds cell of a grid with at least one row and
one column. -/
theorem specCount_eq_liveNeighborCount (g : Grid) {rows cols i j : Nat}
    (hr : 1 ≤ rows) (hc : 1 ≤ cols) (hi : i < rows) (hj : j < cols) :
    specToroidalNeighborCount g rows cols i j = liveNeighborCount g rows cols i j := by
  unfold specToroidalNeighborCount specNeighborOffsets liveNeighborCount
  simp only [List.countP_cons, List.countP_nil]
  rw [specWrap_add_one rows i, specWrap_add_one cols j,
    specWrap_add_zero i hi, specWrap_add_zero j hj,
    specWrap_add_neg_one i hr, specWrap_add_neg_one j hc]
  simp only [Nat.zero_add]
  ac_rfl

/-! ### Allocation helpers for initializeGridChecked -/

theorem mapM_rowPair_ok {cols : Int} (h : ¬cols < 0) :
    ∀ (l : List Nat),
      (l.mapM (fun _ => do
        let r1 ← mkFalseRow cols
        let r2 ← mkFalseRow cols
        pure (r1, r2)) : Except GridError (List (List Bool × List Bool))) =
      Except.ok (List.replicate l.length
        (List.replicate cols.toNat false, List.replicate cols.toNat false)) := by
  have hrow : mkFalseRow cols = .ok (List.replicate cols.toNat false) := by
    simp [mkFalseRow, h]
  intro l
  induction l with
  | nil => rfl
  | cons a l ih =>
    rw [List.mapM_cons, ih]
    simp only [hrow]
    rfl

theorem mapM_rowPair_err {cols : Int} (h : cols < 0) {n : Nat} (hn : 0 < n) :
    ((List.range n).mapM (fun _ => do
        let r1 ← mkFalseRow cols
        let r2 ← mkFalseRow cols
        pure (r1, r2)) : Except GridError (List (List Bool × List Bool))) =
      Except.error GridError.invalidDimension := by
  have hrow : mkFalseRow cols = .error GridError.invalidDimension := by
    simp [mkFalseRow, h]
  obtain ⟨m, hm⟩ : ∃ m, n = m + 1 := ⟨n - 1, by omega⟩
  rw [hm, List.range_succ_eq_map, List.mapM_cons]
  simp only [hrow]
  rfl

/-! ### Claim theorems -/

/-- C1: for every grid state with rows >= 1 and cols >= 1, one call of
the step operation (updateGrid) computes each cell of the next
generation by the standard Conway rule over the 8 toroidal neighbors:
the cell at (i, j) is alive after the step iff either it was alive and
its live-neighbor count among the 8 wrapped offsets (indices taken
modulo rows and cols) is exactly 2 or 3, or it was dead and that count
is exactly 3. -/
theorem updateGrid_implements_conway_rule (s : GameState)
    (hr : 1 ≤ s.rows) (hc : 1 ≤ s.cols) (i j : Nat)
    (hi : i < s.rows) (hj : j < s.cols) :
    getCell (updateGrid s).grid i j = true ↔
      ((getCell s.grid i j = true ∧
          (specToroidalNeighborCount s.grid s.rows s.cols i j = 2 ∨
           specToroidalNeighborCount s.grid s.rows s.cols i j = 3)) ∨
       (getCell s.grid i j = false ∧
          specToroidalNeighborCount s.grid s.rows s.cols i j = 3)) := by
  have hg : (updateGrid s).grid = computeNextGrid s.grid s.rows s.cols := rfl
  rw [hg, getCell_computeNextGrid hi hj,
    specCount_eq_liveNeighborCount s.grid hr hc hi hj]
  unfold nextCellState
  cases hcell : getCell s.grid i j <;> simp [hcell]

/-- Witness for C1 at a concrete 1-by-1 state with a single live cell:
all 8 wrapped offsets point back at the cell itself, so the count is 8
and the cell dies. -/
theorem updateGrid_implements_conway_rule_witness :
    1 ≤ (1 : Nat) ∧ 0 < (1 : Nat) ∧
    (getCell (updateGrid (GameState.mk true false [[true]] [[false]] 1 1 false false)).grid 0 0 = true ↔
      ((getCell [[true]] 0 0 = true ∧
          (specToroidalNeighborCount [[true]] 1 1 0 0 = 2 ∨
           specToroidalNeighborCount [[true]] 1 1 0 0 = 3)) ∨
       (getCell [[true]] 0 0 = false ∧
          specToroidalNeighborCount [[true]] 1 1 0 0 = 3))) :=
  ⟨by decide, by decide,
    updateGrid_implements_conway_rule
      (GameState.mk true false [[true]] [[false]] 1 1 false false)
      (by decide) (by decide) 0 0 (by decide) (by decide)⟩

/-- C2: after one call of updateGrid the gridChanged flag is true iff
some in-bounds cell changed state, and a fully dead grid stays fully
dead with the flag false. -/
theorem updateGrid_changed_flag (s : GameState) :
    ((updateGrid s).gridChanged = true ↔
      ∃ i, i < s.rows ∧ ∃ j, j < s.cols ∧
        getCell (updateGrid s).grid i j ≠ getCell s.grid i j) ∧
    (s.grid = allFalseGrid s.rows s.cols →
      (updateGrid s).grid = allFalseGrid s.rows s.cols ∧
      (updateGrid s).gridChanged = false) := by
  constructor
  · have hflag : (updateGrid s).gridChanged = anyCellChanged s.grid s.rows s.cols := rfl
    have hg : (updateGrid s).grid = computeNextGrid s.grid s.rows s.cols := rfl
    rw [hflag, hg]
    unfold anyCellChanged
    simp only [List.any_eq_true, List.mem_range, bne_iff_ne, ne_eq]
    constructor
    · rintro ⟨i, hi, j, hj, hne⟩
      exact ⟨i, hi, j, hj, by rw [getCell_computeNextGrid hi hj]; exact hne⟩
    · rintro ⟨i, hi, j, hj, hne⟩
      rw [getCell_computeNextGrid hi hj] at hne
      exact ⟨i, hi, j, hj, hne⟩
  · intro hdead
    have hnext : ∀ i j,
        nextCellState (allFalseGrid s.rows s.cols) s.rows s.cols i j = false := by
      intro i j
      unfold nextCellState liveNeighborCount
      simp [getCell_allFalseGrid]
    constructor
    · have hg : (updateGrid s).grid = computeNextGrid s.grid s.rows s.cols := rfl
      rw [hg, hdead]
      unfold computeNextGrid
      simp only [hnext, List.map_const', List.length_range]
      rfl
    · have hflag : (updateGrid s).gridChanged = anyCellChanged s.grid s.rows s.cols := rfl
      rw [hflag]
      unfold anyCellChanged
      simp [hnext, hdead, getCell_allFalseGrid]

/-- On the declared control range the clamp of sliderToSpeed is the
identity: the power already lies inside [0.1, 10]. -/
theorem sliderToSpeed_eq_rpow {v : ℝ} (h0 : 0 ≤ v) (h100 : v ≤ 100) :
    sliderToSpeed v = (10 : ℝ) ^ ((v - 50) / 50) := by
  show max 0.1 (min 10 ((10 : ℝ) ^ ((v - 50) / 50))) = (10 : ℝ) ^ ((v - 50) / 50)
  have hlo : (-1 : ℝ) ≤ (v - 50) / 50 := by
    rw [le_div_iff₀ (by norm_num : (0 : ℝ) < 50)]; linarith
  have hhi : (v - 50) / 50 ≤ 1 := by
    rw [div_le_one (by norm_num : (0 : ℝ) < 50)]; linarith
  have hle : (10 : ℝ) ^ ((v - 50) / 50) ≤ 10 := by
    calc (10 : ℝ) ^ ((v - 50) / 50) ≤ 10 ^ (1 : ℝ) :=
          (Real.rpow_le_rpow_left_iff (by norm_num)).mpr hhi
      _ = 10 := Real.rpow_one 10
  have hge : (0.1 : ℝ) ≤ (10 : ℝ) ^ ((v - 50) / 50) := by
    calc (0.1 : ℝ) = 10 ^ (-1 : ℝ) := by rw [Real.rpow_neg_one]; norm_num
      _ ≤ 10 ^ ((v - 50) / 50) :=
          (Real.rpow_le_rpow_left_iff (by norm_num)).mpr hlo
  rw [min_eq_right hle, max_eq_right hge]

/-- C3: sliderToSpeed returns exactly 1 at the midpoint 50, 0.1 at the
minimum 0, 10 at the maximum 100, always lies in [0.1, 10], and is
strictly monotonically increasing on the control range [0, 100]. -/
theorem sliderToSpeed_calibration :
    sliderToSpeed 50 = 1 ∧ sliderToSpeed 0 = 0.1 ∧ sliderToSpeed 100 = 10 ∧
    (∀ v : ℝ, 0.1 ≤ sliderToSpeed v ∧ sliderToSpeed v ≤ 10) ∧
    StrictMonoOn sliderToSpeed (Set.Icc 0 100) := by
  have hbounds : ∀ v : ℝ, 0.1 ≤ sliderToSpeed v ∧ sliderToSpeed v ≤ 10 := by
    intro v
    constructor
    · exact le_max_left _ _
    · exact max_le (by norm_num) (min_le_left _ _)
  refine ⟨?_, ?_, ?_, hbounds, ?_⟩
  · rw [sliderToSpeed_eq_rpow (by norm_num) (by norm_num)]
    norm_num [Real.rpow_zero]
  · rw [sliderToSpeed_eq_rpow le_rfl (by norm_num)]
    rw [show ((0 : ℝ) - 50) / 50 = -1 by norm_num, Real.rpow_neg_one]
    norm_num
  · rw [sliderToSpeed_eq_rpow (by norm_num) le_rfl]
    rw [show ((100 : ℝ) - 50) / 50 = 1 by norm_num, Real.rpow_one]
  · intro a ha b hb hab
    rw [sliderToSpeed_eq_rpow ha.1 ha.2, sliderToSpeed_eq_rpow hb.1 hb.2]
    refine (Real.rpow_lt_rpow_left_iff (by norm_num)).mpr ?_
    have h1 : a - 50 < b - 50 := by linarith
    exact div_lt_div_of_pos_right h1 (by norm_num)

/-- C10: for every real control input, even outside [0, 100], the
clamped multiplier lies in [0.1, 10], and the derived update interval
BASE_INTERVAL / multiplier lies in [20, 2000] milliseconds and is
positive (and hence finite). -/
theorem sliderToSpeed_always_safe (v : ℝ) :
    0.1 ≤ sliderToSpeed v ∧ sliderToSpeed v ≤ 10 ∧
    20 ≤ updateIntervalFor (sliderToSpeed v) ∧
    updateIntervalFor (sliderToSpeed v) ≤ 2000 ∧
    0 < updateIntervalFor (sliderToSpeed v) := by
  have h1 : (0.1 : ℝ) ≤ sliderToSpeed v := le_max_left _ _
  have h2 : sliderToSpeed v ≤ 10 := max_le (by norm_num) (min_le_left _ _)
  have hm : (0 : ℝ) < sliderToSpeed v := lt_of_lt_of_le (by norm_num) h1
  unfold updateIntervalFor
  refine ⟨h1, h2, ?_, ?_, ?_⟩
  · rw [le_div_iff₀ hm]; linarith
  · rw [div_le_iff₀ hm]; linarith
  · exact div_pos (by norm_num) hm

/-- C4: the resize operation (reallocation via initializeGrid followed
by transferGridData) produces a current grid that keeps every cell of
the overlapping rectangle of the old and new shapes and is false
everywhere outside it. -/
theorem resizeTo_preserves_overlap (s : GameState) (newRows newCols : Nat)
    (hshape : gridShape s.grid s.rows s.cols) (i j : Nat)
    (hi : i < newRows) (hj : j < newCols) :
    getCell (resizeTo s newRows newCols).grid i j =
      if i < min s.rows newRows ∧ j < min s.cols newCols
      then getCell s.grid i j else false := by
  have hgrid : (resizeTo s newRows newCols).grid =
      (List.range (min newRows s.grid.length)).foldl (fun g2 i2 =>
        (List.range (min newCols (s.grid.headD []).length)).foldl
          (fun g3 j2 => setCell g3 i2 j2 (getCell s.grid i2 j2)) g2)
        (allFalseGrid newRows newCols) := rfl
  rw [hgrid, hshape.1]
  by_cases hR : s.rows = 0
  · rw [hR]
    simp only [Nat.min_zero, List.range_zero, List.foldl_nil]
    rw [getCell_allFalseGrid, if_neg (by omega)]
  · have hpos : 0 < s.rows := Nat.pos_of_ne_zero hR
    have hheadlen : (s.grid.headD []).length = s.cols := by
      cases hgl : s.grid with
      | nil =>
        exfalso
        have hlen := hshape.1
        rw [hgl] at hlen
        simp at hlen
        omega
      | cons r rest =>
        have hmem : r ∈ s.grid := by
          rw [hgl]; exact List.mem_cons_self r rest
        have hlenr := hshape.2 r hmem
        simpa using hlenr
    rw [hheadlen]
    rw [getCell_foldl_rectWrite (fun i2 j2 => getCell s.grid i2 j2)
      (Nat.min_le_left newCols s.cols)
      (min newRows s.rows) (Nat.min_le_left newRows s.rows)
      (allFalseGrid newRows newCols) (gridShape_allFalseGrid newRows newCols) i j]
    rw [getCell_allFalseGrid, Nat.min_comm newRows s.rows,
      Nat.min_comm newCols s.cols]

/-- Witness for C4: a 2-by-2 grid resized to 1-by-3, read at the newly
exposed cell (0, 2), which is outside the overlap and hence false. -/
theorem resizeTo_preserves_overlap_witness :
    gridShape [[true, false], [false, true]] 2 2 ∧ (0 : Nat) < 1 ∧ (2 : Nat) < 3 ∧
    getCell (resizeTo (GameState.mk true false [[true, false], [false, true]]
        [[false, false], [false, false]] 2 2 false false) 1 3).grid 0 2 =
      if 0 < min 2 1 ∧ 2 < min 2 3
      then getCell [[true, false], [false, true]] 0 2 else false :=
  ⟨by decide, by decide, by decide,
    resizeTo_preserves_overlap
      (GameState.mk true false [[true, false], [false, true]]
        [[false, false], [false, false]] 2 2 false false)
      1 3 (by decide) 0 2 (by decide) (by decide)⟩

/-- C5: the toggle operation rejects every out-of-bounds coordinate,
leaving the whole state unchanged and signalling outOfBounds, and for
every in-bounds coordinate flips exactly the addressed cell, leaving
all other cells unchanged. -/
theorem toggleCell_spec (s : GameState) (row col : Int)
    (hshape : gridShape s.grid s.rows s.cols) :
    (¬(0 ≤ row ∧ row < (s.rows : Int) ∧ 0 ≤ col ∧ col < (s.cols : Int)) →
      toggleCell s row col = (s, some GridError.outOfBounds)) ∧
    ((0 ≤ row ∧ row < (s.rows : Int) ∧ 0 ≤ col ∧ col < (s.cols : Int)) →
      ((toggleCell s row col).2 = none ∧
       getCell (toggleCell s row col).1.grid row.toNat col.toNat =
         !(getCell s.grid row.toNat col.toNat) ∧
       (∀ i2 j2 : Nat, ¬(i2 = row.toNat ∧ j2 = col.toNat) →
         getCell (toggleCell s row col).1.grid i2 j2 = getCell s.grid i2 j2))) := by
  constructor
  · intro h
    unfold toggleCell
    rw [if_neg h]
  · intro h
    unfold toggleCell
    rw [if_pos h]
    refine ⟨rfl, ?_, ?_⟩
    · apply getCell_setCell_eq
      · rw [hshape.1]; omega
      · rw [row_length_of_gridShape hshape (by omega)]; omega
    · intro i2 j2 hne
      exact getCell_setCell_ne _ (by tauto)

/-- Witness for C5: an out-of-bounds toggle at row 5 of a 1-by-1 grid is
rejected without mutation. -/
theorem toggleCell_spec_witness :
    gridShape [[true]] 1 1 ∧
    ¬((0 : Int) ≤ 5 ∧ (5 : Int) < ((1 : Nat) : Int) ∧
      (0 : Int) ≤ 0 ∧ (0 : Int) < ((1 : Nat) : Int)) ∧
    toggleCell (GameState.mk false false [[true]] [[false]] 1 1 false false) 5 0 =
      (GameState.mk false false [[true]] [[false]] 1 1 false false,
       some GridError.outOfBounds) :=
  ⟨by decide, by decide,
    (toggleCell_spec (GameState.mk false false [[true]] [[false]] 1 1 false false)
      5 0 (by decide)).1 (by decide)⟩

/-- C6 counterexample: at rows = 0 and cols = -1 the source initializeGrid
succeeds with two empty grids instead of failing, because the row loop
body (the only place a negative cols would make the Array constructor
throw) never runs; the claim requires failure whenever cols < 0. -/
theorem initializeGrid_accepts_negative_cols :
    ((-1 : Int) < 0) ∧ initializeGridChecked 0 (-1) = Except.ok ([], []) :=
  ⟨by decide, rfl⟩

/-- C6 (amended): initializeGrid fails (with the Array constructor range
error, labelled InvalidDimension) iff rows < 0, or rows > 0 and
cols < 0; for rows = 0 it succeeds with empty grids whatever cols is,
and otherwise allocates both buffers as all-false rows-by-cols
matrices. -/
theorem initializeGridChecked_spec (rows cols : Int) :
    initializeGridChecked rows cols =
      if rows < 0 ∨ (0 < rows ∧ cols < 0)
      then Except.error GridError.invalidDimension
      else Except.ok
        (List.replicate rows.toNat (List.replicate cols.toNat false),
         List.replicate rows.toNat (List.replicate cols.toNat false)) := by
  unfold initializeGridChecked
  by_cases h1 : rows < 0
  · rw [if_pos h1, if_pos (Or.inl h1)]
  · rw [if_neg h1]
    by_cases h2 : cols < 0
    · by_cases h3 : 0 < rows
      · rw [if_pos (Or.inr ⟨h3, h2⟩),
          mapM_rowPair_err h2 (by omega : 0 < rows.toNat)]
        rfl
      · have h0 : rows.toNat = 0 := by omega
        rw [if_neg (by tauto), h0]
        rfl
    · rw [if_neg (by tauto), mapM_rowPair_ok h2 (List.range rows.toNat)]
      simp [List.map_replicate, List.length_range]

/-- C7 counterexample: a live cell chosen by the random draws with a
failing probability draw (1/2, not above the 0.7 threshold) is
overwritten to dead, so a cell that was alive before the call is dead
after it. -/
theorem addRandomCells_kills_live_cell :
    getCell [[true]] 0 0 = true ∧
    getCell (addRandomCells 1 1 (fun _ => 1 / 2) 1 [[true]]) 0 0 = false := by
  refine ⟨rfl, ?_⟩
  unfold addRandomCells
  rw [show List.range 1 = [0] from rfl]
  simp only [List.foldl_cons, List.foldl_nil]
  norm_num
  rfl

/-- C7 (amended): addRandomCells writes only at the drawn coordinates
(each written cell is set to the outcome of its probability draw, which
can also kill a live cell); every cell not chosen by any iteration keeps
its previous state. -/
theorem addRandomCells_preserves_unchosen (rows cols count : Nat)
    (draws : Nat → ℚ) (g : Grid) (i j : Nat)
    (h : ∀ k, k < count →
      ¬((Int.floor (draws (3 * k) * rows)).toNat = i ∧
        (Int.floor (draws (3 * k + 1) * cols)).toNat = j)) :
    getCell (addRandomCells rows cols draws count g) i j = getCell g i j := by
  induction count with
  | zero => rfl
  | succ n ih =>
    show getCell ((List.range (n + 1)).foldl _ g) i j = getCell g i j
    rw [List.range_succ, List.foldl_append]
    simp only [List.foldl_cons, List.foldl_nil]
    rw [getCell_setCell_ne _ (by have := h n (by omega); tauto)]
    exact ih (fun k hk => h k (by omega))

/-- Witness for C7's amended claim: with an all-zero draw stream only
cell (0, 0) is targeted, so the live cell at (1, 1) is untouched. -/
theorem addRandomCells_preserves_unchosen_witness :
    (∀ k, k < 1 →
      ¬((Int.floor ((0 : ℚ) * ((2 : Nat) : ℚ))).toNat = 1 ∧
        (Int.floor ((0 : ℚ) * ((2 : Nat) : ℚ))).toNat = 1)) ∧
    getCell (addRandomCells 2 2 (fun _ => 0) 1 [[true, false], [false, true]]) 1 1 =
      getCell [[true, false], [false, true]] 1 1 := by
  have h : ∀ k, k < 1 →
      ¬((Int.floor ((0 : ℚ) * ((2 : Nat) : ℚ))).toNat = 1 ∧
        (Int.floor ((0 : ℚ) * ((2 : Nat) : ℚ))).toNat = 1) := by
    intro k hk
    norm_num
  exact ⟨h, addRandomCells_preserves_unchosen 2 2 1 (fun _ => 0)
    [[true, false], [false, true]] 1 1 h⟩

/-- C8: on becoming hidden the pre-hide state is recorded and a
transition to paused happens only from playing; on becoming visible a
transition back to playing happens only if the recorded state was
playing and the current state is paused; no other case toggles; and a
hide followed by a show restores the original playback state. -/
theorem visibility_pause_resume (s : GameState) :
    (onHidden s).wasPlaying = s.isPlaying ∧
    (onHidden s).isPlaying = false ∧
    (s.isPlaying = false → onHidden s = { s with wasPlaying := false }) ∧
    (s.wasPlaying = false ∨ s.isPlaying = true → onVisible s = s) ∧
    (s.wasPlaying = true → s.isPlaying = false →
      onVisible s = { s with isPlaying := true, needsRedraw := true }) ∧
    (onVisible (onHidden s)).isPlaying = s.isPlaying := by
  obtain ⟨ip, wp, g, ng, r, c, gc, nr⟩ := s
  cases ip <;> cases wp <;>
    simp [onHidden, onVisible, togglePlayPause]

/-- Witness for C8: hiding while already paused records the paused state
and performs no toggle. -/
theorem visibility_pause_resume_witness :
    (GameState.mk false false ([] : Grid) ([] : Grid) 0 0 false false).isPlaying = false ∧
    onHidden (GameState.mk false false ([] : Grid) ([] : Grid) 0 0 false false) =
      { GameState.mk false false ([] : Grid) ([] : Grid) 0 0 false false with
          wasPlaying := false } :=
  ⟨rfl, (visibility_pause_resume
    (GameState.mk false false ([] : Grid) ([] : Grid) 0 0 false false)).2.2.1 rfl⟩

/-- C9: the shape invariant (both buffers are rows-by-cols matrices,
with rows, cols : Nat non-negative by type) is established by
initialization and preserved by the step with its buffer swap, by the
resize transfer, and by the cell toggle. -/
theorem engine_shape_invariant (s : GameState) (newRows newCols : Nat)
    (row col : Int) :
    shapeInv (initializeGridS s) ∧
    (shapeInv s → shapeInv (updateGrid s)) ∧
    (shapeInv s → shapeInv (resizeTo s newRows newCols)) ∧
    (shapeInv s → shapeInv ((toggleCell s row col).1)) := by
  refine ⟨⟨gridShape_allFalseGrid _ _, gridShape_allFalseGrid _ _⟩, ?_, ?_, ?_⟩
  · intro hs
    exact ⟨gridShape_computeNextGrid _ _ _, hs.1⟩
  · intro _
    refine ⟨?_, gridShape_allFalseGrid _ _⟩
    have hgrid : (resizeTo s newRows newCols).grid =
        (List.range (min newRows s.grid.length)).foldl (fun g2 i2 =>
          (List.range (min newCols (s.grid.headD []).length)).foldl
            (fun g3 j2 => setCell g3 i2 j2 (getCell s.grid i2 j2)) g2)
          (allFalseGrid newRows newCols) := rfl
    show gridShape (resizeTo s newRows newCols).grid newRows newCols
    rw [hgrid]
    refine gridShape_foldl (fun g2 i2 hg2 => ?_) _ _
      (gridShape_allFalseGrid newRows newCols)
    exact gridShape_foldl (fun g3 j2 hg3 => gridShape_setCell hg3 i2 j2 _) _ g2 hg2
  · intro hs
    unfold toggleCell
    by_cases h : 0 ≤ row ∧ row < (s.rows : Int) ∧ 0 ≤ col ∧ col < (s.cols : Int)
    · rw [if_pos h]
      exact ⟨gridShape_setCell hs.1 _ _ _, hs.2⟩
    · rw [if_neg h]
      exact hs

/-- Witness for C9 at a concrete 1-by-1 state with one live cell. -/
theorem engine_shape_invariant_witness :
    shapeInv (GameState.mk true false [[true]] [[false]] 1 1 false false) ∧
    shapeInv (updateGrid (GameState.mk true false [[true]] [[false]] 1 1 false false)) :=
  ⟨by decide,
    (engine_shape_invariant
      (GameState.mk true false [[true]] [[false]] 1 1 false false) 1 1 0 0).2.1
      (by decide)⟩

/-- Witness for C2 at a concrete fully dead 1-by-2 state. -/
theorem updateGrid_changed_flag_witness :
    (GameState.mk true false [[false, false]] [[false, false]] 1 2 false false).grid
        = allFalseGrid 1 2 ∧
    ((updateGrid (GameState.mk true false [[false, false]] [[false, false]] 1 2 false false)).grid
        = allFalseGrid 1 2 ∧
     (updateGrid (GameState.mk true false [[false, false]] [[false, false]] 1 2 false false)).gridChanged
        = false) :=
  ⟨rfl, (updateGrid_changed_flag
    (GameState.mk true false [[false, false]] [[false, false]] 1 2 false false)).2 rfl⟩
